import Mathlib

/-!
Verification of the filter / parse / render core of the 3D-printing
construction dashboard (src/app.py and src/map_dashboard.py).

The two Python files share the data loading, material classification,
command parsing and filter pipeline verbatim; shared logic is embedded
once at top level.  Logic that differs between the two variants lives in
the namespaces `App` (src/app.py) and `MapDashboard`
(src/map_dashboard.py).

Conventions of the embedding:
* a pandas row is a `Project`; columns that survive `dropna` at load time
  (`Project`, `Year`, `Country`, `Material`, `Organization`) are plain
  fields, the others (`City`, `Latitude`, `Longitude`) are `Option`s.
  `Year` is kept as `Int` (the source coerces to numeric and drops NaN;
  fractional years do not occur in the data and `int()` is applied before
  every use).  Panel-only columns (`Description`, `Link`) never reach the
  embedded logic and are omitted.
* Python strings are `String`; `str.lower` is mapped per character
  (faithful for the ASCII data involved), the `in` operator is
  `isSubstrB` on character lists.
* `pandas.Series.str.contains` interprets its argument as a regular
  expression.  It is modelled by a small matcher (`reSearchSimple`) that
  is faithful to Python `re.search` on the fragment of patterns made of
  ordinary characters and the metacharacter `.`; other patterns are
  outside the model, in which case the search step returns `none`.
* the `re` range patterns of `parse_filter_command` are modelled by
  position-by-position matchers (`searchAt`) with explicit alternation;
  the alternations `from|between` and `to|and` have pairwise distinct
  first characters, so trying each alternative to completion in order
  is exactly Python's backtracking behaviour.
* the external OpenAI call is a boundary: its outcome is passed in as an
  `ApiResult` (success text or raised error).  The statistics block that
  only feeds the request's context string does not influence any output
  modelled here and is not reproduced.
* emoji prefixes of user-visible messages are dropped; the braces-free
  texts are otherwise kept.
-/

/-- One row of the project catalog after `load_data` (src/app.py lines
30-41): rows missing Project, Year, Country, Material or Organization
have been dropped, hence those fields are total; City and the
coordinates may be missing. -/
structure Project where
  name : String
  year : Int
  country : String
  city : Option String
  organization : String
  material : String
  latitude : Option Rat
  longitude : Option Rat
deriving DecidableEq

/-- Python `str.lower`, character by character (faithful on ASCII). -/
def lowerStr (s : String) : String := ⟨s.data.map Char.toLower⟩

/-- Python substring operator `needle in hay` on character lists. -/
def isSubstrB (needle : List Char) : List Char → Bool
  | [] => needle.isPrefixOf []
  | c :: t => needle.isPrefixOf (c :: t) || isSubstrB needle t

/-- Python `needle in hay` on strings. -/
def strIn (needle hay : String) : Bool := isSubstrB needle.data hay.data

/-- Embeds `categorize_material` (src/app.py lines 44-57,
src/map_dashboard.py lines 42-55): ordered case-insensitive keyword
containment, first match wins, with a catch-all final category. -/
def categorize_material (material : String) : String :=
  let material_lower := lowerStr material
  if ["concrete", "cement"].any (fun t => strIn t material_lower) then "Concrete/Cement"
  else if ["ceramic", "clay"].any (fun t => strIn t material_lower) then "Ceramics/Clay"
  else if strIn "composite" material_lower then "Composite"
  else if ["plastic", "polymer"].any (fun t => strIn t material_lower) then "Plastic/Polymer"
  else if strIn "metal" material_lower then "Metal"
  else "Other/Experimental"

/-! Regex model for the command parser.  `parse_filter_command` uses
`re.search` with three fixed range patterns and a `re.findall`
fallback; the matchers below follow those patterns character by
character. -/

/-- ASCII digit test (Python `\d` on the ASCII data involved). -/
def isDigitB (c : Char) : Bool := 48 ≤ c.toNat && c.toNat ≤ 57

/-- Numeric value of an ASCII digit character. -/
def digitVal (c : Char) : Int := ((c.toNat - 48 : Nat) : Int)

/-- Python `\s` whitespace class (ASCII part). -/
def isSpaceB (c : Char) : Bool :=
  c == ' ' || c == '\t' || c == '\n' || c == '\r' || c == '\x0b' || c == '\x0c'

/-- Python `\w` word-character class (ASCII part), used for `\b`. -/
def isWordB (c : Char) : Bool :=
  isDigitB c || (97 ≤ c.toNat && c.toNat ≤ 122) || (65 ≤ c.toNat && c.toNat ≤ 90) || c == '_'

/-- Match a literal character sequence at the head of the input,
returning the remainder. -/
def matchLit : List Char → List Char → Option (List Char)
  | [], s => some s
  | _ :: _, [] => none
  | l :: ls, c :: cs => if l = c then matchLit ls cs else none

/-- Match `(\d{4})` at the head of the input: exactly four digits,
returning their numeric value and the remainder. -/
def matchDigits4 : List Char → Option (Int × List Char)
  | c1 :: c2 :: c3 :: c4 :: rest =>
      if isDigitB c1 && isDigitB c2 && isDigitB c3 && isDigitB c4 then
        some (digitVal c1 * 1000 + digitVal c2 * 100 + digitVal c3 * 10 + digitVal c4, rest)
      else none
  | _ => none

/-- Greedy `\s*`. -/
def dropSpaces (s : List Char) : List Char := s.dropWhile isSpaceB

/-- Greedy `\s+`: at least one whitespace character.  The characters
that follow `\s+` in every range pattern are never whitespace, so the
greedy consumption never needs to backtrack. -/
def matchSpaces1 : List Char → Option (List Char)
  | c :: rest => if isSpaceB c then some (dropSpaces rest) else none
  | [] => none

/-- The dash class of the second range pattern.  src/map_dashboard.py
line 85 has the class hyphen/en-dash; in src/app.py line 87 the en-dash
was mangled into three bytes at some point, so its class differs in the
non-ASCII members, but both contain the plain hyphen and the claims only
exercise the hyphen. -/
def dashChars : List Char := ['-', '–']

/-- Match one character of the dash class. -/
def matchDash : List Char → Option (List Char)
  | c :: rest => if dashChars.contains c then some rest else none
  | [] => none

/-- Tail `\s+(\d{4})` shared by both alternatives of pattern 1. -/
def matchRange1End (x : Int) (s : List Char) : Option (Int × Int) := do
  let s ← matchSpaces1 s
  let (y, _) ← matchDigits4 s
  pure (x, y)

/-- The `(?:to|and)\s+(\d{4})` tail of pattern 1; `to` and `and` start
with different characters, so trying each alternative to completion in
order is Python's exact backtracking behaviour. -/
def matchRange1Tail (x : Int) (s : List Char) : Option (Int × Int) :=
  (do
    let s2 ← matchLit "to".data s
    matchRange1End x s2) <|>
  (do
    let s2 ← matchLit "and".data s
    matchRange1End x s2)

/-- The `\s+(\d{4})\s+(?:to|and)\s+(\d{4})` part of pattern 1. -/
def matchRange1Rest (s : List Char) : Option (Int × Int) := do
  let s ← matchSpaces1 s
  let (x, s) ← matchDigits4 s
  let s ← matchSpaces1 s
  matchRange1Tail x s

/-- Pattern 1 anchored at the current position:
`(?:from|between)\s+(\d{4})\s+(?:to|and)\s+(\d{4})`. -/
def matchRange1At (s : List Char) : Option (Int × Int) :=
  (do
    let s2 ← matchLit "from".data s
    matchRange1Rest s2) <|>
  (do
    let s2 ← matchLit "between".data s
    matchRange1Rest s2)

/-- Pattern 2 anchored at the current position:
`(\d{4})\s*[-–]\s*(\d{4})`. -/
def matchRange2At (s : List Char) : Option (Int × Int) := do
  let (x, s) ← matchDigits4 s
  let s ← matchDash (dropSpaces s)
  let (y, _) ← matchDigits4 (dropSpaces s)
  pure (x, y)

/-- Pattern 3 anchored at the current position:
`(\d{4})\s+to\s+(\d{4})`. -/
def matchRange3At (s : List Char) : Option (Int × Int) := do
  let (x, s) ← matchDigits4 s
  let s ← matchSpaces1 s
  let s ← matchLit "to".data s
  let s ← matchSpaces1 s
  let (y, _) ← matchDigits4 s
  pure (x, y)

/-- Python `re.search`: try the anchored matcher at every position, left
to right. -/
def searchAt (m : List Char → Option (Int × Int)) : List Char → Option (Int × Int)
  | [] => m []
  | c :: rest =>
      match m (c :: rest) with
      | some r => some r
      | none => searchAt m rest

/-- The three range patterns of `parse_filter_command`, tried in order
on the lowercased message (src/app.py lines 85-97). -/
def searchRangePatterns (s : List Char) : Option (Int × Int) :=
  match searchAt matchRange1At s with
  | some r => some r
  | none =>
      match searchAt matchRange2At s with
      | some r => some r
      | none => searchAt matchRange3At s

/-- The fallback `re.findall(r'\b(20[0-9]{2}|19[0-9]{2})\b', message)`
on the raw message (src/app.py line 100): non-overlapping left-to-right
scan; `prev` is the character before the current position, for the
word-boundary test. -/
def scanYears (prev : Option Char) : List Char → List Int
  | c1 :: c2 :: c3 :: c4 :: rest =>
      if (match prev with | none => true | some p => !isWordB p) &&
         ((c1 == '2' && c2 == '0') || (c1 == '1' && c2 == '9')) &&
         isDigitB c3 && isDigitB c4 &&
         (match rest with | [] => true | r :: _ => !isWordB r) then
        (digitVal c1 * 1000 + digitVal c2 * 100 + digitVal c3 * 10 + digitVal c4)
          :: scanYears (some c4) rest
      else scanYears (some c1) (c2 :: c3 :: c4 :: rest)
  | c :: rest => scanYears (some c) rest
  | [] => []

/-- The parsed filter commands: the `commands` dict of
`parse_filter_command` (keys `material`, `year_range`, `reset`). -/
structure FilterCommands where
  material : Option String
  year_range : Option (Int × Int)
  reset : Bool
deriving DecidableEq

/-- The keyword-to-category mapping, in the dict insertion order of the
source (src/app.py lines 66-76). -/
def material_mappings : List (String × String) :=
  [("concrete", "Concrete/Cement"), ("cement", "Concrete/Cement"),
   ("ceramic", "Ceramics/Clay"), ("clay", "Ceramics/Clay"),
   ("composite", "Composite"),
   ("plastic", "Plastic/Polymer"), ("polymer", "Plastic/Polymer"),
   ("metal", "Metal"), ("experimental", "Other/Experimental")]

/-- Reset keywords (src/app.py line 109). -/
def reset_keywords : List String :=
  ["reset", "clear", "all projects", "show all", "remove filters", "no filter"]

/-- Embeds `parse_filter_command` (src/app.py lines 60-113,
src/map_dashboard.py lines 58-111): first material keyword found wins;
year range from the three range patterns on the lowercased message,
else from the word-bounded 19xx/20xx tokens of the raw message (first
two, or a degenerate single-year range); reset from keyword
containment. -/
def parse_filter_command (message : String) : FilterCommands :=
  let message_lower := lowerStr message
  let material := (material_mappings.find? (fun kc => strIn kc.1 message_lower)).map (·.2)
  let year_range :=
    match searchRangePatterns message_lower.data with
    | some (x, y) => some (min x y, max x y)
    | none =>
        match scanYears none message.data with
        | y1 :: y2 :: _ => some (min y1 y2, max y1 y2)
        | [y1] => some (y1, y1)
        | [] => none
  let reset := reset_keywords.any (fun kw => strIn kw message_lower)
  ⟨material, year_range, reset⟩

/-! The chat orchestrator's filter-application step, shared verbatim by
both variants (src/app.py lines 1001-1020, src/map_dashboard.py lines
1379-1398). -/

/-- The year bounds used on reset:
`[int(df['Year'].min()), int(df['Year'].max())] if not df.empty else
[2015, 2025]` (src/app.py line 1003). -/
def catalogYearBounds (catalog : List Project) : Int × Int :=
  match catalog.map (·.year) with
  | [] => (2015, 2025)
  | y :: ys => (ys.foldl min y, ys.foldl max y)

/-- Result of folding parsed commands into the current filter state:
new material, new year range, whether any filter was applied, and the
confirmation line. -/
structure AppliedFilters where
  material : String
  yearRange : Int × Int
  applied : Bool
  message : String
deriving DecidableEq

/-- The confirmation line listing the applied fields (src/app.py lines
1015-1020; emoji prefix dropped). -/
def appliedFiltersMessage (cmds : FilterCommands) : String :=
  let parts :=
    (match cmds.material with
     | some m => ["Material: " ++ m]
     | none => []) ++
    (match cmds.year_range with
     | some y => ["Years: " ++ toString y.1 ++ "-" ++ toString y.2]
     | none => [])
  "Filters applied: " ++ String.intercalate ", " parts

/-- Embeds the filter-update block of `update_chat_with_filters`: reset
short-circuits to material `all` and the catalog year bounds; otherwise
material and year range are taken from the parsed commands when present
and kept otherwise. -/
def apply_filter_commands (cmds : FilterCommands) (current_material : String)
    (current_year_range : Int × Int) (catalog : List Project) : AppliedFilters :=
  if cmds.reset then
    { material := "all", yearRange := catalogYearBounds catalog, applied := true,
      message := "Filters reset! Showing all projects." }
  else
    let new_material := match cmds.material with | some m => m | none => current_material
    let new_year_range := match cmds.year_range with | some y => y | none => current_year_range
    let filter_applied := cmds.material.isSome || cmds.year_range.isSome
    { material := new_material, yearRange := new_year_range, applied := filter_applied,
      message := if filter_applied then appliedFiltersMessage cmds else "" }

/-! The filter engine of `update_dashboard` (src/app.py lines 511-534)
and `update_dashboard_with_selection` (src/map_dashboard.py lines
771-790): year mask, then material mask when not `all`, then the search
mask when the search box is non-empty. -/

/-- An atom of the regex fragment modelled for
`Series.str.contains`: an ordinary character or the metacharacter
dot. -/
inductive RAtom
  | lit (c : Char)
  | dot
deriving DecidableEq

/-- Python `re` metacharacters other than the dot; a pattern containing
one of these is outside the modelled fragment. -/
def metaOther : List Char :=
  ['^', '$', '*', '+', '?', '\x7b', '\x7d', '[', ']', '\\', '|', '(', ')']

/-- Parse a pattern string of the modelled fragment into atoms; `none`
when the pattern uses an unmodelled metacharacter. -/
def parseSimplePattern : List Char → Option (List RAtom)
  | [] => some []
  | c :: cs =>
      if metaOther.contains c then none
      else (parseSimplePattern cs).map
        (fun r => (if c = '.' then RAtom.dot else RAtom.lit c) :: r)

/-- A pattern made only of ordinary characters (no metacharacter at
all, not even the dot); for such patterns regex containment is plain
substring containment. -/
def plainPattern (p : List Char) : Bool :=
  p.all (fun c => !metaOther.contains c && c != '.')

/-- One atom against one character; the dot matches anything but a
newline, as in Python `re` without `DOTALL`. -/
def atomMatch : RAtom → Char → Bool
  | .lit d, c => d == c
  | .dot, c => c != '\n'

/-- Match every atom in sequence from the head of the input. -/
def matchAtomsAt : List RAtom → List Char → Bool
  | [], _ => true
  | _ :: _, [] => false
  | a :: as, c :: cs => atomMatch a c && matchAtomsAt as cs

/-- Model of `re.search` for atom sequences: does the pattern match at
some position. -/
def reSearchSimple (pat : List RAtom) : List Char → Bool
  | [] => matchAtomsAt pat []
  | c :: cs => matchAtomsAt pat (c :: cs) || reSearchSimple pat cs

/-- The five-column search mask of one row (src/app.py lines 527-533):
`Project`, `Organization`, `Country`, `City`, `Material`, each
lowercased, with `na=False` so a missing City contributes `False`. -/
def rowSearchMask (pat : List RAtom) (r : Project) : Bool :=
  reSearchSimple pat (lowerStr r.name).data ||
  reSearchSimple pat (lowerStr r.organization).data ||
  reSearchSimple pat (lowerStr r.country).data ||
  (match r.city with
   | some c => reSearchSimple pat (lowerStr c).data
   | none => false) ||
  reSearchSimple pat (lowerStr r.material).data

/-- The search filter: the lowercased search term is handed to
`str.contains` as a pattern; `none` when the pattern is outside the
modelled regex fragment. -/
def searchFilter (search_term : String) (rows : List Project) : Option (List Project) :=
  match parseSimplePattern (lowerStr search_term).data with
  | some pat => some (rows.filter (rowSearchMask pat))
  | none => none

/-- The search step: applied only when the search box is non-empty
(`if search_term:`). -/
def searchStep (search_term : String) (rows : List Project) : Option (List Project) :=
  if search_term ≠ "" then searchFilter search_term rows else some rows

/-- The year-range mask:
`(df['Year'] >= year_range[0]) & (df['Year'] <= year_range[1])`. -/
def yearStep (year_range : Int × Int) (rows : List Project) : List Project :=
  rows.filter (fun r => decide (year_range.1 ≤ r.year) && decide (r.year ≤ year_range.2))

/-- The material mask, skipped for the `all` sentinel; the
`Material_Category` column is the derived `categorize_material` of the
raw material text. -/
def materialStep (material_filter : String) (rows : List Project) : List Project :=
  if material_filter ≠ "all" then
    rows.filter (fun r => categorize_material r.material == material_filter)
  else rows

/-- The whole filter pipeline of `update_dashboard`: year, then
material, then search. -/
def update_dashboard_filtered (catalog : List Project) (material_filter : String)
    (year_range : Int × Int) (search_term : String) : Option (List Project) :=
  searchStep search_term (materialStep material_filter (yearStep year_range catalog))

/-- Modelled from the spec: the spec's search semantics, for
comparison with the source's regex semantics — "keep rows where the
lowercase search text is a substring of ANY of: project name,
organization, country, city, raw material", with a missing field never
matching. -/
def spec_search_match (search_text : String) (r : Project) : Bool :=
  isSubstrB (lowerStr search_text).data (lowerStr r.name).data ||
  isSubstrB (lowerStr search_text).data (lowerStr r.organization).data ||
  isSubstrB (lowerStr search_text).data (lowerStr r.country).data ||
  (match r.city with
   | some c => isSubstrB (lowerStr search_text).data (lowerStr c).data
   | none => false) ||
  isSubstrB (lowerStr search_text).data (lowerStr r.material).data

/-! The view synthesizer. -/

/-- The timeline histogram
`filtered_df.groupby('Year').size()` (src/app.py line 596,
src/map_dashboard.py line 882): distinct years ascending, each with the
number of filtered rows of that year. -/
def histogram (rows : List Project) : List (Int × Nat) :=
  (List.insertionSort (· ≤ ·) (rows.map (·.year)).dedup).map
    (fun y => (y, (rows.filter (fun r => r.year == y)).length))

/-- One entry of a `Scattergeo` marker trace: the coordinate columns as
handed to the plotting library (missing values stay missing) and the
project name used as `customdata` click identity. -/
structure MarkerEntry where
  lon : Option Rat
  lat : Option Rat
  customdata : String
deriving DecidableEq

/-- The sidebar project list: one rendered item per filtered row, or
the single placeholder item (src/app.py lines 636-675). -/
def project_list_names (filtered : List Project) : List String :=
  if filtered.length > 0 then filtered.map (·.name)
  else ["No projects match the current filters"]

/-- A click input of the selection logic: the close button, a map-dot
click (with the extracted `customdata`, `none` when extraction fails),
or a sidebar list-item click (with the project name parsed from the
trigger id, `none` when parsing fails). -/
inductive ClickEvent
  | closePanel
  | mapClick (customdata : Option String)
  | listClick (projectName : Option String)
deriving DecidableEq

namespace App

/-- Embeds the marker construction of `update_dashboard` (src/app.py
lines 537-562): when the filtered set is non-empty and the frame has a
Latitude column, the single trace carries every filtered row — the
coordinate values are passed through unconditionally, missing or
not. -/
def map_markers (filtered : List Project) (hasLatColumn : Bool) : List MarkerEntry :=
  if filtered.length > 0 ∧ hasLatColumn = true then
    filtered.map (fun r => ⟨r.longitude, r.latitude, r.name⟩)
  else []

/-- Embeds the selection outcome of `toggle_project_panel` (src/app.py
lines 690-808, third output `current-open-project`): close clears;
a clicked name equal to the currently open project toggles off; a
different clicked name becomes the open project (also on the error
branch); failed extraction or an empty catalog keeps the current
value. -/
def toggle_project_panel_selection (trigger : ClickEvent)
    (current_open_project : String) (dfEmpty : Bool) : String :=
  match trigger with
  | .closePanel => ""
  | .mapClick none => current_open_project
  | .mapClick (some clicked) =>
      if clicked ≠ "" ∧ dfEmpty = false then
        (if clicked = current_open_project then "" else clicked)
      else current_open_project
  | .listClick none => current_open_project
  | .listClick (some clicked) =>
      if clicked ≠ "" ∧ dfEmpty = false then
        (if clicked = current_open_project then "" else clicked)
      else current_open_project

end App

namespace MapDashboard

/-- Embeds the selection update of `update_dashboard_with_selection`
(src/map_dashboard.py lines 739-766): close deselects; a clicked
project different from the current selection becomes selected in one
step, clicking the selected project again deselects; failed extraction
keeps the current selection. -/
def update_selected (trigger : ClickEvent) (current_selected : String) : String :=
  match trigger with
  | .closePanel => ""
  | .mapClick none => current_selected
  | .mapClick (some clicked) =>
      if clicked ≠ current_selected then clicked else ""
  | .listClick none => current_selected
  | .listClick (some clicked) =>
      if clicked ≠ current_selected then clicked else ""

/-- Embeds the two-trace marker construction of
`update_dashboard_with_selection` (src/map_dashboard.py lines 793-848):
the non-selected rows first, then — when a selection is active — the
selected rows on top; every filtered row is passed through with its
coordinate values, missing or not. -/
def map_markers (filtered : List Project) (new_selected : String)
    (hasLatColumn : Bool) : List MarkerEntry :=
  if filtered.length > 0 ∧ hasLatColumn = true then
    (filtered.filter (fun r => r.name != new_selected)).map
      (fun r => ⟨r.longitude, r.latitude, r.name⟩) ++
    (if new_selected ≠ "" then
      (filtered.filter (fun r => r.name == new_selected)).map
        (fun r => ⟨r.longitude, r.latitude, r.name⟩)
     else [])
  else []

end MapDashboard

/-! The chat orchestrator (`update_chat_with_filters` in both
variants). -/

/-- One turn of the stored chat history (the `role`/`content` dicts
serialised into the hidden store; the `str`/`eval` round trip is the
identity on this data and is not reproduced). -/
structure ChatTurn where
  role : String
  content : String
deriving DecidableEq

/-- One rendered line of the chat display (`You:` or `AI:` div). -/
structure ChatLine where
  speaker : String
  text : String
deriving DecidableEq

/-- Outcome of the external text-generation call: the reply text, or
the message of the exception the call raised (timeout, auth failure,
malformed response, ...). -/
inductive ApiResult
  | ok (text : String)
  | err (emsg : String)
deriving DecidableEq

/-- The five outputs of `update_chat_with_filters`: chat display,
cleared input box, material dropdown value, year slider value, stored
history. -/
structure ChatOutput where
  display : List ChatLine
  inputValue : String
  material : String
  yearRange : Int × Int
  history : List ChatTurn
deriving DecidableEq

/-- Python `if len(l) > n: l = l[-n:]` — keep the most recent `n`
entries. -/
def pyTailKeep (n : Nat) (l : List α) : List α :=
  if l.length > n then l.drop (l.length - n) else l

/-- The four trigger phrases of the map_dashboard easter egg
(src/map_dashboard.py lines 1329-1334). -/
def pk_variations : List String :=
  ["i am pk and i like pizza hawaii",
   "i am pk and i love pizza hawaii",
   "im pk and i like pizza hawaii",
   "im pk and i love pizza hawaii"]

/-- The normalised message the easter egg check runs on: lowercased,
with commas, periods and exclamation marks removed
(src/map_dashboard.py line 1328; removing all occurrences of the three
characters one character class at a time is the same as filtering them
out). -/
def message_clean (message : String) : String :=
  ⟨(lowerStr message).data.filter (fun c => !(c == ',' || c == '.' || c == '!'))⟩

/-- The fixed easter-egg reply (src/map_dashboard.py lines 1337-1351).
The ASCII-art banner is reproduced with a few punctuation characters
normalised to periods; its exact glyphs are irrelevant to the
properties proved, which only use that this reply is one fixed
string. -/
def prankResponse : String :=
  "...............,..\\, .........,..\\,..../\n....../../.../..../\n..../../.../....­­..,-----,\n../../.../....//....­........\n./../.../..../......../..\\....\\\n.............................\n.\\..................\\\\.../...)\n...\\\\....................V...../\n.....\\\\........................./\n.......•...................•.\n..........|.................|\n........▓▒▒▒▒▒▒▒▓\n........▓▒▒▒▒▒▒▒▓\n\nThis is a serious construction database."

namespace App

/-- Embeds `update_chat_with_filters` of src/app.py (lines 987-1179).
The parsed commands are folded into the filter state first; the
external call sits in its own inner `try`, so a raised call error is
turned into an inline `AI error` reply while the new filter values are
still returned.  The statistics block between the two steps only feeds
the request context and raises nothing, so the outer `except` of the
source is unreachable and not modelled.  The source appends only the
user turn to the stored history (no assistant turn) and stores it on
this path regardless of the call outcome. -/
def update_chat_with_filters (message : String) (current_chat : List ChatLine)
    (current_material : String) (current_year_range : Int × Int)
    (stored_history : List ChatTurn) (catalog : List Project)
    (api_key : Option String) (api : ApiResult) : ChatOutput :=
  if message = "" then
    ⟨current_chat, "", current_material, current_year_range, stored_history⟩
  else
    let applied := apply_filter_commands (parse_filter_command message)
      current_material current_year_range catalog
    match api_key with
    | none =>
        ⟨current_chat ++
          [⟨"You", message⟩, ⟨"AI", "AI assistant unavailable (API key not found)"⟩],
         "", current_material, current_year_range, stored_history⟩
    | some _ =>
        let history := pyTailKeep 6 (stored_history ++ [⟨"user", message⟩])
        let ai_response :=
          match api with
          | .ok t => t
          | .err e => "AI error: " ++ e
        let ai_response :=
          if applied.applied then applied.message ++ "\n\n" ++ ai_response else ai_response
        let new_chat := pyTailKeep 20
          (current_chat ++ [⟨"You", message⟩, ⟨"AI", ai_response⟩])
        ⟨new_chat, "", applied.material, applied.yearRange, history⟩

end App

namespace MapDashboard

/-- Embeds `update_chat_with_filters` of src/map_dashboard.py (lines
1322-1545).  The easter-egg check runs first and short-circuits
everything.  Unlike the app variant, the external call has no inner
`try`: a raised call error lands in the outer `except`, which returns
the error line together with the *current* (pre-message) filter values
and history.  On success the history gains both the user and the
assistant turn, capped at six. -/
def update_chat_with_filters (message : String) (current_chat : List ChatLine)
    (current_material : String) (current_year_range : Int × Int)
    (stored_history : List ChatTurn) (catalog : List Project)
    (api_key : Option String) (api : ApiResult) : ChatOutput :=
  if message = "" then
    ⟨current_chat, "", current_material, current_year_range, stored_history⟩
  else if pk_variations.any (fun v => strIn v (message_clean message)) then
    ⟨pyTailKeep 20 (current_chat ++ [⟨"You", message⟩, ⟨"AI", prankResponse⟩]),
     "", current_material, current_year_range, stored_history⟩
  else
    let applied := apply_filter_commands (parse_filter_command message)
      current_material current_year_range catalog
    match api_key with
    | none =>
        ⟨current_chat ++
          [⟨"You", message⟩, ⟨"AI", "AI assistant unavailable (API key not found)"⟩],
         "", current_material, current_year_range, stored_history⟩
    | some _ =>
        match api with
        | .err e =>
            ⟨current_chat ++
              [⟨"You", message⟩, ⟨"AI", "AI error: " ++ (⟨e.data.take 50⟩ : String) ++ "..."⟩],
             "", current_material, current_year_range, stored_history⟩
        | .ok t =>
            let history := pyTailKeep 6 (stored_history ++ [⟨"user", message⟩])
            let history := pyTailKeep 6 (history ++ [⟨"assistant", t⟩])
            let ai_response :=
              if applied.applied then applied.message ++ "\n\n" ++ t else t
            let new_chat := pyTailKeep 20
              (current_chat ++ [⟨"You", message⟩, ⟨"AI", ai_response⟩])
            ⟨new_chat, "", applied.material, applied.yearRange, history⟩

end MapDashboard

/-- A concrete catalog row used to instantiate theorems: complete,
with coordinates. -/
def alphaRow : Project :=
  ⟨"Alpha House", 2016, "Germany", some "Berlin", "OrgA", "printed concrete", some 1, some 2⟩

/-- A concrete catalog row with no city and a missing longitude. -/
def betaRow : Project :=
  ⟨"Beta Bridge", 2019, "Spain", none, "OrgB", "steel and metal", some 3, none⟩

/-- A concrete catalog row with a missing latitude. -/
def gammaRow : Project :=
  ⟨"Gamma Hub", 2021, "France", some "Paris", "OrgC", "concrete mix", none, some 4⟩

/-- A small concrete catalog for instantiating the theorems on closed
inputs. -/
def demoCatalog : List Project := [alphaRow, betaRow, gammaRow]

/-! Helper lemmas. -/

theorem isPrefixOf_eq_true_iff (n h : List Char) :
    n.isPrefixOf h = true ↔ ∃ t, h = n ++ t := by
  induction n generalizing h with
  | nil => simp [List.isPrefixOf]
  | cons a as ih =>
    cases h with
    | nil => simp [List.isPrefixOf]
    | cons b bs =>
      simp only [List.isPrefixOf, Bool.and_eq_true, beq_iff_eq, ih, List.cons_append,
        List.cons.injEq]
      constructor
      · rintro ⟨rfl, t, rfl⟩
        exact ⟨t, rfl, rfl⟩
      · rintro ⟨t, rfl, rfl⟩
        exact ⟨rfl, t, rfl⟩

/-- `isSubstrB` really is substring containment. -/
theorem isSubstrB_eq_true_iff (n h : List Char) :
    isSubstrB n h = true ↔ ∃ p q, h = p ++ n ++ q := by
  induction h with
  | nil =>
    simp only [isSubstrB, isPrefixOf_eq_true_iff]
    constructor
    · rintro ⟨t, ht⟩
      exact ⟨[], t, by simpa using ht⟩
    · rintro ⟨p, q, hpq⟩
      rcases List.append_eq_nil.mp (List.append_eq_nil.mp hpq.symm).1 with ⟨rfl, rfl⟩
      exact ⟨q, hpq⟩
  | cons c t ih =>
    simp only [isSubstrB, Bool.or_eq_true, isPrefixOf_eq_true_iff, ih]
    constructor
    · rintro (⟨q, hq⟩ | ⟨p, q, rfl⟩)
      · exact ⟨[], q, by simpa using hq⟩
      · exact ⟨c :: p, q, rfl⟩
    · rintro ⟨p, q, hpq⟩
      cases p with
      | nil => exact Or.inl ⟨q, by simpa using hpq⟩
      | cons d ds =>
        right
        simp only [List.cons_append, List.cons.injEq] at hpq
        exact ⟨ds, q, hpq.2⟩

theorem searchStep_sublist {t : String} {rows out : List Project}
    (h : searchStep t rows = some out) : out.Sublist rows := by
  unfold searchStep searchFilter at h
  split at h
  · cases hp : parseSimplePattern (lowerStr t).data with
    | none => rw [hp] at h; cases h
    | some pat =>
      rw [hp] at h
      cases h
      exact List.filter_sublist _
  · cases h
    exact List.Sublist.refl _

theorem searchStep_mono {t : String} {A B oA oB : List Project}
    (hAB : A.Sublist B) (hA : searchStep t A = some oA) (hB : searchStep t B = some oB) :
    oA.Sublist oB := by
  unfold searchStep searchFilter at hA hB
  by_cases ht : t = ""
  · rw [if_neg (by simp [ht])] at hA hB
    cases hA; cases hB; exact hAB
  · rw [if_pos ht] at hA hB
    cases hp : parseSimplePattern (lowerStr t).data with
    | none => rw [hp] at hA; cases hA
    | some pat =>
      rw [hp] at hA hB
      cases hA; cases hB
      exact hAB.filter _

theorem yearStep_narrow {a b a2 b2 : Int} (rows : List Project)
    (ha : a ≤ a2) (hb : b2 ≤ b) :
    (yearStep (a2, b2) rows).Sublist (yearStep (a, b) rows) := by
  unfold yearStep
  refine List.monotone_filter_right _ (fun r hr => ?_)
  simp only [Bool.and_eq_true, decide_eq_true_eq] at hr ⊢
  omega

theorem materialStep_sublist (m : String) (rows : List Project) :
    (materialStep m rows).Sublist rows := by
  unfold materialStep
  split
  · exact List.filter_sublist _
  · exact List.Sublist.refl _

theorem materialStep_mono (m : String) {A B : List Project} (hAB : A.Sublist B) :
    (materialStep m A).Sublist (materialStep m B) := by
  unfold materialStep
  split
  · exact hAB.filter _
  · exact hAB

theorem materialStep_all_widest (m : String) (rows : List Project) :
    (materialStep m rows).Sublist (materialStep "all" rows) := by
  have h2 : materialStep "all" rows = rows := by simp [materialStep]
  rw [h2]
  exact materialStep_sublist m rows

/-- C1: the filter engine only ever narrows.  Whenever the pipeline is
defined, its result is a sublist (hence a subset) of the catalog;
shrinking the year range, replacing the `all` material sentinel by a
specific category, and adding a search text each produce a sublist
(hence never a larger result set) of the corresponding wider run. -/
theorem filter_engine_subset_and_monotone
    (catalog : List Project) (mat : String) (a b a2 b2 : Int) (t : String)
    (res resShrunk resAll resPlain : List Project)
    (h1 : update_dashboard_filtered catalog mat (a, b) t = some res)
    (h2 : update_dashboard_filtered catalog mat (a2, b2) t = some resShrunk)
    (h3 : update_dashboard_filtered catalog "all" (a, b) t = some resAll)
    (h4 : update_dashboard_filtered catalog mat (a, b) "" = some resPlain)
    (ha : a ≤ a2) (hb : b2 ≤ b) :
    res.Sublist catalog ∧ res ⊆ catalog ∧
    resShrunk.Sublist res ∧ resShrunk.length ≤ res.length ∧
    res.Sublist resAll ∧ res.length ≤ resAll.length ∧
    res.Sublist resPlain ∧ res.length ≤ resPlain.length := by
  unfold update_dashboard_filtered at h1 h2 h3 h4
  have hYsub : (yearStep (a, b) catalog).Sublist catalog := List.filter_sublist _
  have hMsub := materialStep_sublist mat (yearStep (a, b) catalog)
  have hres : res.Sublist (materialStep mat (yearStep (a, b) catalog)) := searchStep_sublist h1
  have hcat : res.Sublist catalog := (hres.trans hMsub).trans hYsub
  have hplain : resPlain = materialStep mat (yearStep (a, b) catalog) := by
    simp [searchStep] at h4
    exact h4.symm
  have hshrunk : resShrunk.Sublist res :=
    searchStep_mono (materialStep_mono mat (yearStep_narrow catalog ha hb)) h2 h1
  have hall : res.Sublist resAll :=
    searchStep_mono (materialStep_all_widest mat (yearStep (a, b) catalog)) h1 h3
  have hplainSub : res.Sublist resPlain := by rw [hplain]; exact hres
  exact ⟨hcat, hcat.subset, hshrunk, hshrunk.length_le, hall, hall.length_le,
    hplainSub, hplainSub.length_le⟩

/-- Witness for C1 at a concrete catalog and filter state. -/
theorem filter_engine_subset_and_monotone_witness :
    ([alphaRow, gammaRow] : List Project).Sublist demoCatalog ∧
    ([alphaRow, gammaRow] : List Project) ⊆ demoCatalog ∧
    ([gammaRow] : List Project).Sublist [alphaRow, gammaRow] ∧
    ([gammaRow] : List Project).length ≤ ([alphaRow, gammaRow] : List Project).length ∧
    ([alphaRow, gammaRow] : List Project).Sublist [alphaRow, betaRow, gammaRow] ∧
    ([alphaRow, gammaRow] : List Project).length ≤
      ([alphaRow, betaRow, gammaRow] : List Project).length ∧
    ([alphaRow, gammaRow] : List Project).Sublist [alphaRow, gammaRow] ∧
    ([alphaRow, gammaRow] : List Project).length ≤ ([alphaRow, gammaRow] : List Project).length :=
  filter_engine_subset_and_monotone demoCatalog "Concrete/Cement" 2015 2025 2018 2022 "a"
    [alphaRow, gammaRow] [gammaRow] [alphaRow, betaRow, gammaRow] [alphaRow, gammaRow]
    (by decide) (by decide) (by decide) (by decide) (by decide) (by decide)

theorem plainPattern_parse {p : List Char} (hp : plainPattern p = true) :
    parseSimplePattern p = some (p.map RAtom.lit) := by
  induction p with
  | nil => rfl
  | cons c cs ih =>
    simp only [plainPattern, List.all_cons, Bool.and_eq_true, Bool.not_eq_true', bne_iff_ne,
      ne_eq] at hp
    obtain ⟨⟨hmc, hdot⟩, hrest⟩ := hp
    unfold parseSimplePattern
    rw [if_neg (by simp only [hmc]; exact Bool.false_ne_true), ih hrest]
    simp [hdot]

theorem matchAtomsAt_lit (p : List Char) : ∀ s : List Char,
    matchAtomsAt (p.map RAtom.lit) s = p.isPrefixOf s := by
  induction p with
  | nil => intro s; simp [matchAtomsAt, List.isPrefixOf]
  | cons c cs ih =>
    intro s
    cases s with
    | nil => simp [matchAtomsAt, List.isPrefixOf]
    | cons d ds => simp [matchAtomsAt, List.isPrefixOf, atomMatch, ih]

theorem reSearchSimple_lit (p : List Char) : ∀ s : List Char,
    reSearchSimple (p.map RAtom.lit) s = isSubstrB p s := by
  intro s
  induction s with
  | nil => simp [reSearchSimple, isSubstrB, matchAtomsAt_lit]
  | cons c cs ih => simp [reSearchSimple, isSubstrB, matchAtomsAt_lit, ih]

theorem rowSearchMask_lit (t : String) (r : Project) :
    rowSearchMask ((lowerStr t).data.map RAtom.lit) r = spec_search_match t r := by
  unfold rowSearchMask spec_search_match
  cases hc : r.city <;> simp [reSearchSimple_lit]

/-- C2 (amended): for a search text free of regex metacharacters, the
search step keeps exactly the rows in which the lowercased search text
is a substring of one of the five columns, OR across the columns and
case-insensitively; a missing City contributes nothing and raises
nothing.  (As stated the claim fails because `str.contains` treats the
search text as a regular expression; see the counterexample.) -/
theorem search_step_substring_semantics (search_term : String)
    (rows out : List Project) (r : Project)
    (ht : search_term ≠ "")
    (hplain : plainPattern (lowerStr search_term).data = true)
    (hout : searchStep search_term rows = some out) :
    (r ∈ out ↔ r ∈ rows ∧ spec_search_match search_term r = true) ∧
    (r.city = none →
      spec_search_match search_term r =
        (isSubstrB (lowerStr search_term).data (lowerStr r.name).data ||
         isSubstrB (lowerStr search_term).data (lowerStr r.organization).data ||
         isSubstrB (lowerStr search_term).data (lowerStr r.country).data ||
         isSubstrB (lowerStr search_term).data (lowerStr r.material).data)) := by
  unfold searchStep searchFilter at hout
  rw [if_pos ht, plainPattern_parse hplain] at hout
  cases hout
  constructor
  · rw [List.mem_filter, rowSearchMask_lit]
  · intro hc
    unfold spec_search_match
    rw [hc]
    simp [Bool.or_false, Bool.or_assoc]

/-- The claim C2 as stated is false: `Series.str.contains` interprets
the search text as a regular expression, so the search text `.` keeps a
row none of whose columns contains a literal period. -/
theorem search_step_regex_counterexample :
    searchStep "." [(⟨"cat", 2020, "yy", none, "xx", "zz", none, none⟩ : Project)] =
      some [⟨"cat", 2020, "yy", none, "xx", "zz", none, none⟩] ∧
    spec_search_match "." ⟨"cat", 2020, "yy", none, "xx", "zz", none, none⟩ = false := by
  decide

/-- Witness for C2 on a concrete search. -/
theorem search_step_substring_semantics_witness :
    (alphaRow ∈ ([alphaRow, gammaRow] : List Project) ↔
      alphaRow ∈ demoCatalog ∧ spec_search_match "concrete" alphaRow = true) ∧
    (alphaRow.city = none →
      spec_search_match "concrete" alphaRow =
        (isSubstrB (lowerStr "concrete").data (lowerStr alphaRow.name).data ||
         isSubstrB (lowerStr "concrete").data (lowerStr alphaRow.organization).data ||
         isSubstrB (lowerStr "concrete").data (lowerStr alphaRow.country).data ||
         isSubstrB (lowerStr "concrete").data (lowerStr alphaRow.material).data)) :=
  search_step_substring_semantics "concrete" demoCatalog [alphaRow, gammaRow] alphaRow
    (by decide) (by decide) (by decide)

/-- C3 (amended): when the external text-generation call raises, the
app variant catches it in the inner handler: the display gains the user
line plus a single inline error line and the handler still returns the
material and year range computed from the parsed commands.  The
map_dashboard variant has no inner handler: the raised error reaches
the outer handler, which also surfaces a single inline error line but
returns the current (pre-message) material, year range and history,
discarding the parsed filter changes. -/
theorem chat_api_error_semantics (message : String) (current_chat : List ChatLine)
    (current_material : String) (current_year_range : Int × Int)
    (stored_history : List ChatTurn) (catalog : List Project) (key e : String)
    (hmsg : message ≠ "")
    (hegg : pk_variations.any (fun v => strIn v (message_clean message)) = false) :
    App.update_chat_with_filters message current_chat current_material current_year_range
        stored_history catalog (some key) (.err e) =
      ⟨pyTailKeep 20 (current_chat ++ [⟨"You", message⟩,
          ⟨"AI",
            if (apply_filter_commands (parse_filter_command message) current_material
                current_year_range catalog).applied then
              (apply_filter_commands (parse_filter_command message) current_material
                current_year_range catalog).message ++ "\n\n" ++ ("AI error: " ++ e)
            else "AI error: " ++ e⟩]),
       "",
       (apply_filter_commands (parse_filter_command message) current_material
         current_year_range catalog).material,
       (apply_filter_commands (parse_filter_command message) current_material
         current_year_range catalog).yearRange,
       pyTailKeep 6 (stored_history ++ [⟨"user", message⟩])⟩ ∧
    MapDashboard.update_chat_with_filters message current_chat current_material
        current_year_range stored_history catalog (some key) (.err e) =
      ⟨current_chat ++ [⟨"You", message⟩,
          ⟨"AI", "AI error: " ++ (⟨e.data.take 50⟩ : String) ++ "..."⟩],
       "", current_material, current_year_range, stored_history⟩ := by
  constructor
  · unfold App.update_chat_with_filters
    rw [if_neg hmsg]
  · unfold MapDashboard.update_chat_with_filters
    rw [if_neg hmsg, if_neg (by simp only [hegg]; exact Bool.false_ne_true)]

/-- The claim C3 as stated is false for the map_dashboard variant: on
an external-call failure the parsed material (`Concrete/Cement`) is not
returned; the handler falls back to the current value `all`. -/
theorem chat_api_error_map_counterexample :
    (parse_filter_command "show concrete projects").material = some "Concrete/Cement" ∧
    (MapDashboard.update_chat_with_filters "show concrete projects" [] "all" (2015, 2025)
        [] [] (some "k") (.err "timeout")).material = "all" ∧
    ("all" : String) ≠ "Concrete/Cement" := by
  decide

/-- Witness for C3 at a concrete message and error. -/
theorem chat_api_error_semantics_witness :
    App.update_chat_with_filters "show metal projects" [] "all" (2015, 2025)
        [] demoCatalog (some "k") (.err "boom") =
      ⟨pyTailKeep 20 ([] ++ [⟨"You", "show metal projects"⟩,
          ⟨"AI",
            if (apply_filter_commands (parse_filter_command "show metal projects") "all"
                (2015, 2025) demoCatalog).applied then
              (apply_filter_commands (parse_filter_command "show metal projects") "all"
                (2015, 2025) demoCatalog).message ++ "\n\n" ++ ("AI error: " ++ "boom")
            else "AI error: " ++ "boom"⟩]),
       "",
       (apply_filter_commands (parse_filter_command "show metal projects") "all"
         (2015, 2025) demoCatalog).material,
       (apply_filter_commands (parse_filter_command "show metal projects") "all"
         (2015, 2025) demoCatalog).yearRange,
       pyTailKeep 6 ([] ++ [⟨"user", "show metal projects"⟩])⟩ ∧
    MapDashboard.update_chat_with_filters "show metal projects" [] "all" (2015, 2025)
        [] demoCatalog (some "k") (.err "boom") =
      ⟨[] ++ [⟨"You", "show metal projects"⟩,
          ⟨"AI", "AI error: " ++ (⟨"boom".data.take 50⟩ : String) ++ "..."⟩],
       "", "all", (2015, 2025), []⟩ :=
  chat_api_error_semantics "show metal projects" [] "all" (2015, 2025) [] demoCatalog
    "k" "boom" (by decide) (by decide)

theorem foldl_min_le_init : ∀ (l : List Int) (a : Int), l.foldl min a ≤ a := by
  intro l
  induction l with
  | nil => intro a; simp
  | cons b t ih =>
    intro a
    simp only [List.foldl_cons]
    exact le_trans (ih (min a b)) (min_le_left a b)

theorem foldl_min_le_mem : ∀ (l : List Int) (a x : Int), x ∈ l → l.foldl min a ≤ x := by
  intro l
  induction l with
  | nil => intro a x hx; cases hx
  | cons b t ih =>
    intro a x hx
    rcases List.mem_cons.mp hx with rfl | hx2
    · simp only [List.foldl_cons]
      exact le_trans (foldl_min_le_init t (min a x)) (min_le_right a x)
    · exact ih (min a b) x hx2

theorem foldl_min_attained : ∀ (l : List Int) (a : Int),
    l.foldl min a = a ∨ l.foldl min a ∈ l := by
  intro l
  induction l with
  | nil => intro a; left; rfl
  | cons b t ih =>
    intro a
    simp only [List.foldl_cons]
    rcases ih (min a b) with h | h
    · rcases min_choice a b with hc | hc
      · left; rw [h, hc]
      · right; rw [h, hc]; exact List.mem_cons_self b t
    · right; exact List.mem_cons_of_mem b h

theorem le_foldl_max_init : ∀ (l : List Int) (a : Int), a ≤ l.foldl max a := by
  intro l
  induction l with
  | nil => intro a; simp
  | cons b t ih =>
    intro a
    simp only [List.foldl_cons]
    exact le_trans (le_max_left a b) (ih (max a b))

theorem mem_le_foldl_max : ∀ (l : List Int) (a x : Int), x ∈ l → x ≤ l.foldl max a := by
  intro l
  induction l with
  | nil => intro a x hx; cases hx
  | cons b t ih =>
    intro a x hx
    rcases List.mem_cons.mp hx with rfl | hx2
    · simp only [List.foldl_cons]
      exact le_trans (le_max_right a x) (le_foldl_max_init t (max a x))
    · exact ih (max a b) x hx2

theorem foldl_max_attained : ∀ (l : List Int) (a : Int),
    l.foldl max a = a ∨ l.foldl max a ∈ l := by
  intro l
  induction l with
  | nil => intro a; left; rfl
  | cons b t ih =>
    intro a
    simp only [List.foldl_cons]
    rcases ih (max a b) with h | h
    · rcases max_choice a b with hc | hc
      · left; rw [h, hc]
      · right; rw [h, hc]; exact List.mem_cons_self b t
    · right; exact List.mem_cons_of_mem b h

theorem catalogYearBounds_spec (catalog : List Project) (hne : catalog ≠ []) :
    (∀ r ∈ catalog, (catalogYearBounds catalog).1 ≤ r.year ∧
      r.year ≤ (catalogYearBounds catalog).2) ∧
    (∃ r ∈ catalog, (catalogYearBounds catalog).1 = r.year) ∧
    (∃ r ∈ catalog, (catalogYearBounds catalog).2 = r.year) := by
  match catalog with
  | [] => exact absurd rfl hne
  | p :: ps =>
    unfold catalogYearBounds
    simp only [List.map_cons]
    refine ⟨?_, ?_, ?_⟩
    · intro r hr
      rcases List.mem_cons.mp hr with rfl | hr2
      · exact ⟨foldl_min_le_init _ _, le_foldl_max_init _ _⟩
      · exact ⟨foldl_min_le_mem _ _ _ (List.mem_map_of_mem _ hr2),
          mem_le_foldl_max _ _ _ (List.mem_map_of_mem _ hr2)⟩
    · rcases foldl_min_attained (ps.map (·.year)) p.year with h | h
      · exact ⟨p, List.mem_cons_self p ps, h⟩
      · obtain ⟨r, hr, hry⟩ := List.mem_map.mp h
        exact ⟨r, List.mem_cons_of_mem p hr, hry.symm⟩
    · rcases foldl_max_attained (ps.map (·.year)) p.year with h | h
      · exact ⟨p, List.mem_cons_self p ps, h⟩
      · obtain ⟨r, hr, hry⟩ := List.mem_map.mp h
        exact ⟨r, List.mem_cons_of_mem p hr, hry.symm⟩

/-- C4: a reset keyword anywhere in the message sets the parsed reset
flag, and the apply step then yields material `all` and exactly the
catalog's observed year bounds — the min and max of the catalog years —
independently of whatever material or year-range command was parsed
from the same message (those are computed but discarded). -/
theorem chat_reset_wins (message : String) (current_material : String)
    (current_year_range : Int × Int) (catalog : List Project)
    (hkw : reset_keywords.any (fun kw => strIn kw (lowerStr message)) = true)
    (hcat : catalog ≠ []) :
    (parse_filter_command message).reset = true ∧
    (apply_filter_commands (parse_filter_command message) current_material
      current_year_range catalog).material = "all" ∧
    (apply_filter_commands (parse_filter_command message) current_material
      current_year_range catalog).yearRange = catalogYearBounds catalog ∧
    (∀ (m : Option String) (y : Option (Int × Int)),
      apply_filter_commands ⟨m, y, true⟩ current_material current_year_range catalog =
        apply_filter_commands ⟨none, none, true⟩ current_material current_year_range catalog) ∧
    (∀ r ∈ catalog, (catalogYearBounds catalog).1 ≤ r.year ∧
      r.year ≤ (catalogYearBounds catalog).2) ∧
    (∃ r ∈ catalog, (catalogYearBounds catalog).1 = r.year) ∧
    (∃ r ∈ catalog, (catalogYearBounds catalog).2 = r.year) := by
  have hreset : (parse_filter_command message).reset = true := hkw
  obtain ⟨hb1, hb2, hb3⟩ := catalogYearBounds_spec catalog hcat
  refine ⟨hreset, ?_, ?_, ?_, hb1, hb2, hb3⟩
  · simp [apply_filter_commands, hreset]
  · simp [apply_filter_commands, hreset]
  · intro m y
    simp [apply_filter_commands]

/-- Witness for C4 on the spec's own scenario message. -/
theorem chat_reset_wins_witness :
    (parse_filter_command "clear but show concrete from 2020-2022").reset = true ∧
    (apply_filter_commands (parse_filter_command "clear but show concrete from 2020-2022")
      "Metal" (2016, 2019) demoCatalog).material = "all" ∧
    (apply_filter_commands (parse_filter_command "clear but show concrete from 2020-2022")
      "Metal" (2016, 2019) demoCatalog).yearRange = (2016, 2021) := by
  have h := chat_reset_wins "clear but show concrete from 2020-2022" "Metal" (2016, 2019)
    demoCatalog (by decide) (by decide)
  exact ⟨h.1, h.2.1, by rw [h.2.2.1]; decide⟩

theorem digitVal_bound {c : Char} (h : isDigitB c = true) :
    0 ≤ digitVal c ∧ digitVal c ≤ 9 := by
  simp only [isDigitB, Bool.and_eq_true, decide_eq_true_eq] at h
  unfold digitVal
  omega

theorem matchDigits4_bound : ∀ {s : List Char} {v : Int} {r : List Char},
    matchDigits4 s = some (v, r) → 0 ≤ v ∧ v ≤ 9999 := by
  intro s v r h
  match s with
  | [] => exact Option.noConfusion h
  | [c1] => exact Option.noConfusion h
  | [c1, c2] => exact Option.noConfusion h
  | [c1, c2, c3] => exact Option.noConfusion h
  | c1 :: c2 :: c3 :: c4 :: rest =>
    have h2 : (if isDigitB c1 && isDigitB c2 && isDigitB c3 && isDigitB c4 then
        some (digitVal c1 * 1000 + digitVal c2 * 100 + digitVal c3 * 10 + digitVal c4, rest)
      else none) = some (v, r) := h
    split at h2
    · next hd =>
      simp only [Option.some.injEq, Prod.mk.injEq] at h2
      obtain ⟨rfl, rfl⟩ := h2
      simp only [Bool.and_eq_true] at hd
      obtain ⟨⟨⟨h1, hb2⟩, h3⟩, h4⟩ := hd
      obtain ⟨a1, b1⟩ := digitVal_bound h1
      obtain ⟨a2, b2⟩ := digitVal_bound hb2
      obtain ⟨a3, b3⟩ := digitVal_bound h3
      obtain ⟨a4, b4⟩ := digitVal_bound h4
      omega
    · exact Option.noConfusion h2

theorem searchAt_ex {m : List Char → Option (Int × Int)} :
    ∀ {s : List Char} {r : Int × Int}, searchAt m s = some r → ∃ s2, m s2 = some r := by
  intro s
  induction s with
  | nil =>
    intro r h
    exact ⟨[], by simpa [searchAt] using h⟩
  | cons c cs ih =>
    intro r h
    unfold searchAt at h
    cases hm : m (c :: cs) with
    | some r2 =>
      rw [hm] at h
      exact ⟨c :: cs, hm.trans h⟩
    | none =>
      rw [hm] at h
      exact ih h

theorem orElse_eq_some {a b : Option (Int × Int)} {c : Int × Int}
    (h : (a <|> b) = some c) : a = some c ∨ (a = none ∧ b = some c) := by
  cases a with
  | some x => left; simpa using h
  | none => right; exact ⟨rfl, by simpa using h⟩

theorem matchRange1End_bound {x : Int} {s : List Char} {p : Int × Int}
    (h : matchRange1End x s = some p) : p.1 = x ∧ 0 ≤ p.2 ∧ p.2 ≤ 9999 := by
  unfold matchRange1End at h
  rcases hs : matchSpaces1 s with _ | s1 <;> rw [hs] at h
  · exact Option.noConfusion h
  · have h2 : ((matchDigits4 s1).bind fun d => some (x, d.1)) = some p := h
    rw [Option.bind_eq_some] at h2
    obtain ⟨⟨y, rest⟩, hd, hp⟩ := h2
    simp only [Option.some.injEq] at hp
    cases hp
    exact ⟨rfl, (matchDigits4_bound hd).1, (matchDigits4_bound hd).2⟩

theorem matchRange1Tail_bound {x : Int} {s : List Char} {p : Int × Int}
    (h : matchRange1Tail x s = some p) : p.1 = x ∧ 0 ≤ p.2 ∧ p.2 ≤ 9999 := by
  unfold matchRange1Tail at h
  rcases orElse_eq_some h with h1 | ⟨-, h1⟩
  · rcases hl : matchLit "to".data s with _ | s2 <;> rw [hl] at h1
    · exact Option.noConfusion h1
    · exact matchRange1End_bound (show matchRange1End x s2 = some p from h1)
  · rcases hl : matchLit "and".data s with _ | s2 <;> rw [hl] at h1
    · exact Option.noConfusion h1
    · exact matchRange1End_bound (show matchRange1End x s2 = some p from h1)

theorem matchRange1Rest_bound {s : List Char} {p : Int × Int}
    (h : matchRange1Rest s = some p) :
    (0 ≤ p.1 ∧ p.1 ≤ 9999) ∧ (0 ≤ p.2 ∧ p.2 ≤ 9999) := by
  unfold matchRange1Rest at h
  rcases h0 : matchSpaces1 s with _ | s1 <;> rw [h0] at h
  · exact Option.noConfusion h
  · have h2 : ((matchDigits4 s1).bind fun d =>
        (matchSpaces1 d.2).bind fun s3 => matchRange1Tail d.1 s3) = some p := h
    rw [Option.bind_eq_some] at h2
    obtain ⟨⟨x1, s2⟩, hd, h3⟩ := h2
    rw [Option.bind_eq_some] at h3
    obtain ⟨s3, -, h4⟩ := h3
    have hb := matchRange1Tail_bound h4
    have hx := matchDigits4_bound hd
    exact ⟨⟨hb.1 ▸ hx.1, hb.1 ▸ hx.2⟩, hb.2.1, hb.2.2⟩

theorem matchRange1At_bound {s : List Char} {p : Int × Int}
    (h : matchRange1At s = some p) :
    (0 ≤ p.1 ∧ p.1 ≤ 9999) ∧ (0 ≤ p.2 ∧ p.2 ≤ 9999) := by
  unfold matchRange1At at h
  rcases orElse_eq_some h with h1 | ⟨-, h1⟩
  · rcases hl : matchLit "from".data s with _ | s2 <;> rw [hl] at h1
    · exact Option.noConfusion h1
    · exact matchRange1Rest_bound (show matchRange1Rest s2 = some p from h1)
  · rcases hl : matchLit "between".data s with _ | s2 <;> rw [hl] at h1
    · exact Option.noConfusion h1
    · exact matchRange1Rest_bound (show matchRange1Rest s2 = some p from h1)

theorem matchRange2At_bound {s : List Char} {p : Int × Int}
    (h : matchRange2At s = some p) :
    (0 ≤ p.1 ∧ p.1 ≤ 9999) ∧ (0 ≤ p.2 ∧ p.2 ≤ 9999) := by
  unfold matchRange2At at h
  have h2 : ((matchDigits4 s).bind fun d =>
      (matchDash (dropSpaces d.2)).bind fun s2 =>
        (matchDigits4 (dropSpaces s2)).bind fun d2 => some (d.1, d2.1)) = some p := h
  rw [Option.bind_eq_some] at h2
  obtain ⟨⟨x1, s1⟩, hd1, h3⟩ := h2
  rw [Option.bind_eq_some] at h3
  obtain ⟨s2, -, h4⟩ := h3
  rw [Option.bind_eq_some] at h4
  obtain ⟨⟨y1, s3⟩, hd2, h5⟩ := h4
  simp only [Option.some.injEq] at h5
  cases h5
  exact ⟨matchDigits4_bound hd1, matchDigits4_bound hd2⟩

theorem matchRange3At_bound {s : List Char} {p : Int × Int}
    (h : matchRange3At s = some p) :
    (0 ≤ p.1 ∧ p.1 ≤ 9999) ∧ (0 ≤ p.2 ∧ p.2 ≤ 9999) := by
  unfold matchRange3At at h
  have h2 : ((matchDigits4 s).bind fun d =>
      (matchSpaces1 d.2).bind fun s2 =>
        (matchLit "to".data s2).bind fun s3 =>
          (matchSpaces1 s3).bind fun s4 =>
            (matchDigits4 s4).bind fun d2 => some (d.1, d2.1)) = some p := h
  rw [Option.bind_eq_some] at h2
  obtain ⟨⟨x1, s1⟩, hd1, h3⟩ := h2
  rw [Option.bind_eq_some] at h3
  obtain ⟨s2, -, h4⟩ := h3
  rw [Option.bind_eq_some] at h4
  obtain ⟨s3, -, h5⟩ := h4
  rw [Option.bind_eq_some] at h5
  obtain ⟨s4, -, h6⟩ := h5
  rw [Option.bind_eq_some] at h6
  obtain ⟨⟨y1, s5⟩, hd2, h7⟩ := h6
  simp only [Option.some.injEq] at h7
  cases h7
  exact ⟨matchDigits4_bound hd1, matchDigits4_bound hd2⟩

theorem searchRangePatterns_bound {s : List Char} {x y : Int}
    (h : searchRangePatterns s = some (x, y)) :
    (0 ≤ x ∧ x ≤ 9999) ∧ (0 ≤ y ∧ y ≤ 9999) := by
  unfold searchRangePatterns at h
  rcases h1 : searchAt matchRange1At s with _ | p1 <;> rw [h1] at h
  · rcases h2 : searchAt matchRange2At s with _ | p2 <;> rw [h2] at h
    · obtain ⟨s2, hm⟩ := searchAt_ex h
      exact matchRange3At_bound hm
    · cases h
      obtain ⟨s2, hm⟩ := searchAt_ex h2
      exact matchRange2At_bound hm
  · cases h
    obtain ⟨s2, hm⟩ := searchAt_ex h1
    exact matchRange1At_bound hm

/-- C5 (amended): whenever one of the three range patterns matches the
lowercased message, the two captured numbers are 4-digit numbers (the
patterns capture `\d{4}`, so any value from 0000 to 9999 — not only
1900-2099), and the parsed year range is exactly
`[min(X,Y), max(X,Y)]`, whose first component is at most its second. -/
theorem parse_range_patterns_minmax (message : String) (x y : Int)
    (h : searchRangePatterns (lowerStr message).data = some (x, y)) :
    0 ≤ x ∧ x ≤ 9999 ∧ 0 ≤ y ∧ y ≤ 9999 ∧
    (parse_filter_command message).year_range = some (min x y, max x y) ∧
    min x y ≤ max x y := by
  obtain ⟨⟨hx1, hx2⟩, hy1, hy2⟩ := searchRangePatterns_bound h
  refine ⟨hx1, hx2, hy1, hy2, ?_, min_le_max⟩
  unfold parse_filter_command
  simp only [h]

/-- The claim C5 as stated is false: the first range pattern matches
`from 1234 to 5678` and sets the year range to `[1234, 5678]`, although
1234 is not in `[1900, 2099]`. -/
theorem parse_range_patterns_counterexample :
    searchRangePatterns (lowerStr "projects from 1234 to 5678").data = some (1234, 5678) ∧
    (parse_filter_command "projects from 1234 to 5678").year_range = some (1234, 5678) ∧
    ¬((1900 : Int) ≤ 1234) := by
  decide

/-- Witness for C5 on the spec's own scenario message. -/
theorem parse_range_patterns_minmax_witness :
    0 ≤ (2019 : Int) ∧ (2019 : Int) ≤ 9999 ∧ 0 ≤ (2021 : Int) ∧ (2021 : Int) ≤ 9999 ∧
    (parse_filter_command "projects from 2019 to 2021").year_range =
      some (min 2019 2021, max 2019 2021) ∧
    min (2019 : Int) 2021 ≤ max (2019 : Int) 2021 :=
  parse_range_patterns_minmax "projects from 2019 to 2021" 2019 2021 (by decide)

/-- C6: in both variants, clicking the marker or list item of the
currently selected project deselects it; clicking that of a different
project makes it the selection in the same single transition (the
transition function returns the new name directly, so no intermediate
unselected state exists); the explicit close action always
deselects. -/
theorem selection_toggle_spec (clicked current : String) (hc : clicked ≠ "") :
    MapDashboard.update_selected (.mapClick (some clicked)) clicked = "" ∧
    MapDashboard.update_selected (.listClick (some clicked)) clicked = "" ∧
    (clicked ≠ current →
      MapDashboard.update_selected (.mapClick (some clicked)) current = clicked) ∧
    (clicked ≠ current →
      MapDashboard.update_selected (.listClick (some clicked)) current = clicked) ∧
    MapDashboard.update_selected .closePanel current = "" ∧
    App.toggle_project_panel_selection (.mapClick (some clicked)) clicked false = "" ∧
    App.toggle_project_panel_selection (.listClick (some clicked)) clicked false = "" ∧
    (clicked ≠ current →
      App.toggle_project_panel_selection (.mapClick (some clicked)) current false = clicked) ∧
    (clicked ≠ current →
      App.toggle_project_panel_selection (.listClick (some clicked)) current false = clicked) ∧
    App.toggle_project_panel_selection .closePanel current false = "" := by
  refine ⟨?_, ?_, ?_, ?_, rfl, ?_, ?_, ?_, ?_, rfl⟩
  · simp [MapDashboard.update_selected]
  · simp [MapDashboard.update_selected]
  · intro h; simp [MapDashboard.update_selected, h]
  · intro h; simp [MapDashboard.update_selected, h]
  · simp [App.toggle_project_panel_selection, hc]
  · simp [App.toggle_project_panel_selection, hc]
  · intro h; simp [App.toggle_project_panel_selection, hc, h]
  · intro h; simp [App.toggle_project_panel_selection, hc, h]

/-- Witness for C6 at concrete project names. -/
theorem selection_toggle_spec_witness :
    MapDashboard.update_selected (.mapClick (some "Alpha House")) "Alpha House" = "" ∧
    MapDashboard.update_selected (.listClick (some "Alpha House")) "Alpha House" = "" ∧
    ("Alpha House" ≠ "Beta Bridge" →
      MapDashboard.update_selected (.mapClick (some "Alpha House")) "Beta Bridge" =
        "Alpha House") ∧
    ("Alpha House" ≠ "Beta Bridge" →
      MapDashboard.update_selected (.listClick (some "Alpha House")) "Beta Bridge" =
        "Alpha House") ∧
    MapDashboard.update_selected .closePanel "Beta Bridge" = "" ∧
    App.toggle_project_panel_selection (.mapClick (some "Alpha House")) "Alpha House" false =
      "" ∧
    App.toggle_project_panel_selection (.listClick (some "Alpha House")) "Alpha House" false =
      "" ∧
    ("Alpha House" ≠ "Beta Bridge" →
      App.toggle_project_panel_selection (.mapClick (some "Alpha House")) "Beta Bridge" false =
        "Alpha House") ∧
    ("Alpha House" ≠ "Beta Bridge" →
      App.toggle_project_panel_selection (.listClick (some "Alpha House")) "Beta Bridge" false =
        "Alpha House") ∧
    App.toggle_project_panel_selection .closePanel "Beta Bridge" false = "" :=
  selection_toggle_spec "Alpha House" "Beta Bridge" (by decide)

theorem histogram_count_eq (rows : List Project) (y : Int) :
    (rows.filter (fun r => r.year == y)).length = List.count y (rows.map (·.year)) := by
  have h1 : List.count y (rows.map (·.year)) =
      List.countP (fun x => x == y) (rows.map (·.year)) := rfl
  rw [h1, List.countP_map, ← List.countP_eq_length_filter]
  rfl

theorem histogram_sum_counts (rows : List Project) :
    ((histogram rows).map (fun p => p.2)).sum = rows.length := by
  unfold histogram
  rw [List.map_map]
  have hfun : ((fun p : Int × Nat => p.2) ∘
      fun y => (y, (rows.filter (fun r => r.year == y)).length)) =
      fun y => List.count y (rows.map (·.year)) := by
    funext y
    simp [Function.comp, histogram_count_eq]
  rw [hfun, ((List.perm_insertionSort _ _).map _).sum_eq,
    List.sum_map_count_dedup_eq_length, List.length_map]

theorem histogram_years (rows : List Project) :
    (histogram rows).map (fun p => p.1) =
      List.insertionSort (· ≤ ·) (rows.map (·.year)).dedup := by
  unfold histogram
  rw [List.map_map]
  have hid : ((fun p : Int × Nat => p.1) ∘
      fun y => (y, (rows.filter (fun r => r.year == y)).length)) = id := by
    funext y
    rfl
  rw [hid, List.map_id]

theorem histogram_years_sorted_nodup (rows : List Project) :
    List.Sorted (· < ·) ((histogram rows).map (fun p => p.1)) ∧
    ((histogram rows).map (fun p => p.1)).Nodup := by
  rw [histogram_years]
  have hsort := List.sorted_insertionSort (α := Int) (· ≤ ·) (rows.map (·.year)).dedup
  have hperm := List.perm_insertionSort (α := Int) (· ≤ ·) (rows.map (·.year)).dedup
  have hnd : (List.insertionSort (· ≤ ·) (rows.map (·.year)).dedup).Nodup :=
    hperm.symm.nodup (List.nodup_dedup _)
  refine ⟨?_, hnd⟩
  exact (List.Pairwise.and hsort hnd).imp (fun hab => lt_of_le_of_ne hab.1 hab.2)

theorem histogram_counts_pos (rows : List Project) :
    ∀ p ∈ histogram rows, 0 < p.2 := by
  intro p hp
  unfold histogram at hp
  obtain ⟨y, hy, rfl⟩ := List.mem_map.mp hp
  simp only
  rw [histogram_count_eq, List.count_pos_iff]
  exact List.mem_dedup.mp (((List.perm_insertionSort _ _).mem_iff).mp hy)

/-- C7: for every filtered row set, the histogram is a partition of the
rows — its counts sum to the number of rows, its years are strictly
ascending (hence no duplicate year entry), and every entry has a
positive count (zero-count years are omitted, not zero-filled). -/
theorem timeline_histogram_partition (rows : List Project) :
    ((histogram rows).map (fun p => p.2)).sum = rows.length ∧
    List.Sorted (· < ·) ((histogram rows).map (fun p => p.1)) ∧
    ((histogram rows).map (fun p => p.1)).Nodup ∧
    ∀ p ∈ histogram rows, 0 < p.2 :=
  ⟨histogram_sum_counts rows, (histogram_years_sorted_nodup rows).1,
   (histogram_years_sorted_nodup rows).2, histogram_counts_pos rows⟩

theorem length_filter_add_length_filter_not (l : List Project) (p : Project → Bool) :
    (l.filter p).length + (l.filter (fun a => !p a)).length = l.length := by
  induction l with
  | nil => rfl
  | cons a t ih =>
    by_cases h : p a = true <;> simp [List.filter_cons, h] <;> omega

/-- C8 (amended): the marker trace of each variant carries exactly one
entry per filtered row, whether or not the row's coordinates are
present — the coordinate values are handed to the external plotting
library unfiltered, and only that library skips entries with missing
positions.  Rows missing a coordinate are still counted by the
histogram and rendered in the project list.  (The claim as stated —
that such rows are excluded from the marker set — is refuted by the
counterexample below.) -/
theorem markers_one_entry_per_filtered_row (filtered : List Project) (sel : String)
    (hne : filtered ≠ []) (hsel : sel ≠ "") :
    (App.map_markers filtered true).length = filtered.length ∧
    (App.map_markers filtered true).map (fun m => m.customdata) =
      filtered.map (fun r => r.name) ∧
    (MapDashboard.map_markers filtered sel true).length = filtered.length ∧
    ((histogram filtered).map (fun p => p.2)).sum = filtered.length ∧
    project_list_names filtered = filtered.map (fun r => r.name) := by
  have hpos : filtered.length > 0 := List.length_pos.mpr hne
  refine ⟨?_, ?_, ?_, histogram_sum_counts filtered, ?_⟩
  · rw [App.map_markers, if_pos ⟨hpos, rfl⟩, List.length_map]
  · rw [App.map_markers, if_pos ⟨hpos, rfl⟩, List.map_map]
    rfl
  · rw [MapDashboard.map_markers, if_pos ⟨hpos, rfl⟩, if_pos hsel,
      List.length_append, List.length_map, List.length_map]
    have hpart := length_filter_add_length_filter_not filtered (fun r => r.name == sel)
    have hbne : (fun r : Project => r.name != sel) = fun r => !(r.name == sel) := rfl
    rw [hbne]
    omega
  · rw [project_list_names, if_pos hpos]

/-- The claim C8 as stated is false: a filtered row with no coordinates
at all still produces a marker-trace entry in the app variant. -/
theorem markers_missing_coordinates_counterexample :
    App.map_markers [⟨"NoCoord", 2020, "Testland", none, "Org", "concrete", none, none⟩]
        true =
      [⟨none, none, "NoCoord"⟩] ∧
    (([⟨"NoCoord", 2020, "Testland", none, "Org", "concrete", none, none⟩] :
        List Project).filter
      (fun r => r.latitude.isSome && r.longitude.isSome)).length = 0 := by
  decide

/-- Witness for C8 on a concrete filtered set containing rows with
missing coordinates. -/
theorem markers_one_entry_per_filtered_row_witness :
    (App.map_markers demoCatalog true).length = demoCatalog.length ∧
    (App.map_markers demoCatalog true).map (fun m => m.customdata) =
      demoCatalog.map (fun r => r.name) ∧
    (MapDashboard.map_markers demoCatalog "Alpha House" true).length = demoCatalog.length ∧
    ((histogram demoCatalog).map (fun p => p.2)).sum = demoCatalog.length ∧
    project_list_names demoCatalog = demoCatalog.map (fun r => r.name) :=
  markers_one_entry_per_filtered_row demoCatalog "Alpha House" (by decide) (by decide)

/-- C9: the material classifier is a total function into the six fixed
categories, defined by case-insensitive substring tests applied in a
fixed order with the first match winning and a catch-all final
category.  Each category's output is characterised exactly by its
keyword test together with the failure of all earlier tests. -/
theorem material_classifier_total_first_match (material : String) :
    (categorize_material material = "Concrete/Cement" ∨
     categorize_material material = "Ceramics/Clay" ∨
     categorize_material material = "Composite" ∨
     categorize_material material = "Plastic/Polymer" ∨
     categorize_material material = "Metal" ∨
     categorize_material material = "Other/Experimental") ∧
    (categorize_material material = "Concrete/Cement" ↔
      ["concrete", "cement"].any (fun t => strIn t (lowerStr material)) = true) ∧
    (categorize_material material = "Ceramics/Clay" ↔
      (["concrete", "cement"].any (fun t => strIn t (lowerStr material)) = false ∧
       ["ceramic", "clay"].any (fun t => strIn t (lowerStr material)) = true)) ∧
    (categorize_material material = "Composite" ↔
      (["concrete", "cement"].any (fun t => strIn t (lowerStr material)) = false ∧
       ["ceramic", "clay"].any (fun t => strIn t (lowerStr material)) = false ∧
       strIn "composite" (lowerStr material) = true)) ∧
    (categorize_material material = "Plastic/Polymer" ↔
      (["concrete", "cement"].any (fun t => strIn t (lowerStr material)) = false ∧
       ["ceramic", "clay"].any (fun t => strIn t (lowerStr material)) = false ∧
       strIn "composite" (lowerStr material) = false ∧
       ["plastic", "polymer"].any (fun t => strIn t (lowerStr material)) = true)) ∧
    (categorize_material material = "Metal" ↔
      (["concrete", "cement"].any (fun t => strIn t (lowerStr material)) = false ∧
       ["ceramic", "clay"].any (fun t => strIn t (lowerStr material)) = false ∧
       strIn "composite" (lowerStr material) = false ∧
       ["plastic", "polymer"].any (fun t => strIn t (lowerStr material)) = false ∧
       strIn "metal" (lowerStr material) = true)) ∧
    (categorize_material material = "Other/Experimental" ↔
      (["concrete", "cement"].any (fun t => strIn t (lowerStr material)) = false ∧
       ["ceramic", "clay"].any (fun t => strIn t (lowerStr material)) = false ∧
       strIn "composite" (lowerStr material) = false ∧
       ["plastic", "polymer"].any (fun t => strIn t (lowerStr material)) = false ∧
       strIn "metal" (lowerStr material) = false)) := by
  simp only [categorize_material, List.any_cons, List.any_nil, Bool.or_false]
  generalize strIn "concrete" (lowerStr material) = b1
  generalize strIn "cement" (lowerStr material) = b2
  generalize strIn "ceramic" (lowerStr material) = b3
  generalize strIn "clay" (lowerStr material) = b4
  generalize strIn "composite" (lowerStr material) = b5
  generalize strIn "plastic" (lowerStr material) = b6
  generalize strIn "polymer" (lowerStr material) = b7
  generalize strIn "metal" (lowerStr material) = b8
  cases b1 <;> cases b2 <;> cases b3 <;> cases b4 <;> cases b5 <;> cases b6 <;>
    cases b7 <;> cases b8 <;> decide

/-- C10: a triggering Pizza-Hawaii message short-circuits the whole
chat handler of the map_dashboard variant: the display gains the fixed
prank reply and the material filter, year-range filter and stored
history are returned exactly unchanged, for every key/api outcome and
regardless of any material, year or reset content of the message. -/
theorem easter_egg_preserves_state (message : String) (current_chat : List ChatLine)
    (current_material : String) (current_year_range : Int × Int)
    (stored_history : List ChatTurn) (catalog : List Project)
    (api_key : Option String) (api : ApiResult)
    (hmsg : message ≠ "")
    (hegg : pk_variations.any (fun v => strIn v (message_clean message)) = true) :
    MapDashboard.update_chat_with_filters message current_chat current_material
        current_year_range stored_history catalog api_key api =
      ⟨pyTailKeep 20 (current_chat ++ [⟨"You", message⟩, ⟨"AI", prankResponse⟩]),
       "", current_material, current_year_range, stored_history⟩ := by
  unfold MapDashboard.update_chat_with_filters
  rw [if_neg hmsg, if_pos hegg]

/-- Witness for C10: a trigger message that also carries a material, a
year range and a reset keyword. -/
theorem easter_egg_preserves_state_witness :
    MapDashboard.update_chat_with_filters
        "im pk and i like pizza hawaii, show concrete from 2020-2022 and reset!"
        [] "Metal" (2016, 2019) [⟨"user", "hi"⟩] demoCatalog (some "k") (.err "boom") =
      ⟨pyTailKeep 20 ([] ++
          [⟨"You", "im pk and i like pizza hawaii, show concrete from 2020-2022 and reset!"⟩,
           ⟨"AI", prankResponse⟩]),
       "", "Metal", (2016, 2019), [⟨"user", "hi"⟩]⟩ :=
  easter_egg_preserves_state
    "im pk and i like pizza hawaii, show concrete from 2020-2022 and reset!"
    [] "Metal" (2016, 2019) [⟨"user", "hi"⟩] demoCatalog (some "k") (.err "boom")
    (by decide) (by decide)
